import Mathlib

/-!
Verification development for the layout core of node-clinic-bubbleprof.

The definitions below are a shallow embedding of
`src/visualizer/layout/node-allocation.js` (classes `NodeAllocation`,
`HierarchyLevel`, `Clump`, `LinearSpaceSegment`, `SpaceBlock`), together
with small models, written from the specification, of the external
collaborators the file consumes (`Scale.getLineLength` /
`Scale.getCircleRadius` / the `longest` scale constraint, and
`LineCoordinates.pointAtLength`), whose sources are not part of the
repository snapshot under verification.

JavaScript numbers are modelled as exact rationals (`ℚ`) where the code
is pure arithmetic, and as reals (`ℝ`) where Euclidean geometry (square
roots) is involved; floating-point rounding is not modelled, so
"equality within floating-point tolerance" in the specification becomes
exact equality here.
-/

/-! ### Phase 1: unit conversion (`convertTotalStemLengthsToUnits`)

`node-allocation.js` lines 136-147: each Clump at a hierarchy level
receives
  `clumpUnits = parentUnits * (clumpAtDepth.longestLeafLength / proportionFactor)`
where `parentUnits` is the parent Clump's `units` (or `1` when the Clump
has no parent Clump) and `proportionFactor` is
`parentClump.getTotalChildrenLongestLeafLength()` (or the whole level's
`longestLeafLengthSum` when there is no parent).

A sibling group sharing one parent Clump is modelled by the list of the
siblings' `longestLeafLength` values, in `ℚ`. -/

/-- `Clump.getTotalChildrenLongestLeafLength` (node-allocation.js lines
279-281): `reduce((total, clump) => total + clump.longestLeafLength, 0)`
over the child Clumps. -/
def getTotalChildrenLongestLeafLength (lens : List ℚ) : ℚ :=
  lens.sum

/-- The `clumpUnits` expression of node-allocation.js line 142:
`parentUnits * (clumpAtDepth.longestLeafLength / proportionFactor)`. -/
def clumpUnits (parentUnits longestLeafLength proportionFactor : ℚ) : ℚ :=
  parentUnits * (longestLeafLength / proportionFactor)

/-- The `units` values assigned to one group of sibling Clumps sharing
one parent Clump whose `units` is `parentUnits` (node-allocation.js
lines 139-146).  For top-level Clumps (no parent Clump) the code uses
`parentUnits = 1` and divides by the level's `longestLeafLengthSum`,
which for depth 0 is the sum over these same Clumps, i.e. the
`parentUnits = 1` instance of this definition. -/
def siblingUnits (parentUnits : ℚ) (lens : List ℚ) : List ℚ :=
  lens.map (fun l => clumpUnits parentUnits l (getTotalChildrenLongestLeafLength lens))

lemma sum_map_mul_div (c s : ℚ) (lens : List ℚ) :
    (lens.map fun l => c * (l / s)).sum = c * (lens.sum / s) := by
  induction lens with
  | nil => simp
  | cons a t ih =>
      simp only [List.map_cons, List.sum_cons, ih]
      ring

lemma siblingUnits_sum (parentUnits : ℚ) (lens : List ℚ) (h : lens.sum ≠ 0) :
    (siblingUnits parentUnits lens).sum = parentUnits := by
  unfold siblingUnits clumpUnits getTotalChildrenLongestLeafLength
  rw [sum_map_mul_div, div_self h, mul_one]

/-- Claim C1 (counterexample): with two top-level Clumps, each holding
two equal-length leaf children (all leaf total stem lengths equal to 1),
the first top-level Clump receives `units = 1/2`, and the sum of its two
children's `units` is `1/2`, not `1`.  So sibling Clump `units` sharing
one parent do not, in general, sum to 1 after
`convertTotalStemLengthsToUnits`. -/
theorem sibling_units_sum_counterexample :
    (siblingUnits 1 [1, 1]).headD 0 = 1 / 2 ∧
    (siblingUnits ((siblingUnits 1 [1, 1]).headD 0) [1, 1]).sum = 1 / 2 ∧
    (siblingUnits ((siblingUnits 1 [1, 1]).headD 0) [1, 1]).sum ≠ 1 := by
  refine ⟨by norm_num [siblingUnits, clumpUnits, getTotalChildrenLongestLeafLength], ?_, ?_⟩ <;>
    norm_num [siblingUnits, clumpUnits, getTotalChildrenLongestLeafLength]

/-- Claim C1 (amended): after `convertTotalStemLengthsToUnits`, the sum
of the `units` of a group of sibling Clumps sharing one parent Clump
equals the parent Clump's own `units` (provided the sum of the siblings'
longest-leaf lengths is nonzero, as it is for genuine stem lengths);
it equals 1 exactly when the parent's `units` is 1.  Top-level Clumps,
which share no parent, sum to 1 (the `parentUnits = 1` instance). -/
theorem sibling_units_sum_to_parent_units (parentUnits : ℚ) (lens : List ℚ)
    (h : lens.sum ≠ 0) :
    (siblingUnits parentUnits lens).sum = parentUnits ∧
    (siblingUnits 1 lens).sum = 1 :=
  ⟨siblingUnits_sum parentUnits lens h, siblingUnits_sum 1 lens h⟩

/-- Witness for the amended Claim C1 at a concrete sibling group: parent
`units = 2/3`, sibling longest-leaf lengths `[3, 5, 4]`. -/
theorem sibling_units_sum_to_parent_units_witness :
    ([(3 : ℚ), 5, 4].sum ≠ 0) ∧
    ((siblingUnits (2 / 3) [3, 5, 4]).sum = 2 / 3 ∧ (siblingUnits 1 [3, 5, 4]).sum = 1) :=
  ⟨by norm_num, sibling_units_sum_to_parent_units (2 / 3) [3, 5, 4] (by norm_num)⟩

/-! ### The `Scale` collaborator (modelled from the spec)

The `Scale` class itself is not part of the repository snapshot under
`src/`; only its test file (`src/unnamed/part_000`) and the
specification describe it.  The pieces the claims need are modelled
here from the specification's words. -/

/-- Modelled from the spec: the `heightBudget` of the `longest` scale
constraint "defaults to 1.5 × configured height" (spec section 4.1). -/
def heightBudget (svgHeight : ℚ) : ℚ :=
  svgHeight * 1.5

/-- Modelled from the spec: the `longest` constraint's permissible scale
factor, "scaleFactor = (heightBudget − absolutePortion) /
scalablePortion", where the portions come from the longest leaf's
`getTotalStemLength` (spec section 4.1). -/
def longestScaleFactor (svgHeight absolutePortion scalablePortion : ℚ) : ℚ :=
  (heightBudget svgHeight - absolutePortion) / scalablePortion

/-- Modelled from the spec: `calculateScaleFactor` evaluates candidate
constraints and "the decisive constraint is whichever yields the
smallest permissible factor (most restrictive wins)" (spec section 4.1),
a minimum-by-scaleFactor fold over the candidates (spec section 9). -/
def calculateScaleFactor (firstCandidate : ℚ) (otherCandidates : List ℚ) : ℚ :=
  otherCandidates.foldl min firstCandidate

lemma foldl_min_of_le (x : ℚ) (l : List ℚ) (h : ∀ c ∈ l, x ≤ c) :
    l.foldl min x = x := by
  induction l with
  | nil => rfl
  | cons a t ih =>
      have hx : min x a = x := min_eq_left (h a (by simp))
      simp only [List.foldl_cons, hx]
      exact ih fun c hc => h c (by simp [hc])

/-- Claim C3: when the `longest` constraint is decisive (its candidate
factor is at most every other candidate's), the computed scale factor
equals `(heightBudget − absolutePortion) / scalablePortion` with
`heightBudget = 1.5 ×` configured height; in particular, for a positive
expected value the computed factor lies strictly within 10% of
`((height × 1.5) − absolute) / scalable` (Scenario E). -/
theorem longest_decisive_scale_factor (svgHeight absolutePortion scalablePortion : ℚ)
    (otherCandidates : List ℚ)
    (hdecisive : ∀ c ∈ otherCandidates,
      longestScaleFactor svgHeight absolutePortion scalablePortion ≤ c)
    (hpos : 0 < (svgHeight * 1.5 - absolutePortion) / scalablePortion) :
    calculateScaleFactor (longestScaleFactor svgHeight absolutePortion scalablePortion)
        otherCandidates
      = (svgHeight * 1.5 - absolutePortion) / scalablePortion ∧
    ((svgHeight * 1.5 - absolutePortion) / scalablePortion) * (9 / 10)
        < calculateScaleFactor (longestScaleFactor svgHeight absolutePortion scalablePortion)
            otherCandidates ∧
    calculateScaleFactor (longestScaleFactor svgHeight absolutePortion scalablePortion)
        otherCandidates
      < ((svgHeight * 1.5 - absolutePortion) / scalablePortion) * (11 / 10) := by
  have heq : calculateScaleFactor
      (longestScaleFactor svgHeight absolutePortion scalablePortion) otherCandidates
      = (svgHeight * 1.5 - absolutePortion) / scalablePortion := by
    unfold calculateScaleFactor
    rw [foldl_min_of_le _ _ hdecisive]
    unfold longestScaleFactor heightBudget
    ring
  refine ⟨heq, ?_, ?_⟩ <;> rw [heq] <;> nlinarith [hpos]

/-- Witness for Claim C3: height 1000, longest leaf with absolute
portion 0, scalable portion 500, other candidate factors 5 and 7; the
decisive `longest` factor is `(1000 × 1.5 − 0) / 500 = 3`. -/
theorem longest_decisive_scale_factor_witness :
    (∀ c ∈ [(5 : ℚ), 7], longestScaleFactor 1000 0 500 ≤ c) ∧
    (0 < ((1000 : ℚ) * 1.5 - 0) / 500) ∧
    (calculateScaleFactor (longestScaleFactor 1000 0 500) [5, 7]
        = ((1000 : ℚ) * 1.5 - 0) / 500 ∧
      (((1000 : ℚ) * 1.5 - 0) / 500) * (9 / 10)
        < calculateScaleFactor (longestScaleFactor 1000 0 500) [5, 7] ∧
      calculateScaleFactor (longestScaleFactor 1000 0 500) [5, 7]
        < (((1000 : ℚ) * 1.5 - 0) / 500) * (11 / 10)) :=
  ⟨by intro c hc; fin_cases hc <;> norm_num [longestScaleFactor, heightBudget], by norm_num,
    longest_decisive_scale_factor 1000 0 500 [5, 7]
      (by intro c hc; fin_cases hc <;> norm_num [longestScaleFactor, heightBudget])
      (by norm_num)⟩

/-- Modelled from the spec: `Scale.getLineLength(n) = n × scaleFactor`
(spec section 4.1); the `Scale` source is not in the snapshot, only its
test (`src/unnamed/part_000` lines 22-23). -/
noncomputable def getLineLength (scaleFactor n : ℝ) : ℝ :=
  n * scaleFactor

/-- Modelled from the spec: `Scale.getCircleRadius(n) =
getLineLength(n) / (2π)` — a node's weight is treated as a circle's
circumference (spec section 4.1; test `src/unnamed/part_000` lines
36-37). -/
noncomputable def getCircleRadius (scaleFactor n : ℝ) : ℝ :=
  getLineLength scaleFactor n / (2 * Real.pi)

/-- Claim C7: for every n ≥ 0, `getLineLength(n) = n × scaleFactor` and
`getCircleRadius(n) = getLineLength(n) / (2π)`. -/
theorem line_length_and_circle_radius_laws (scaleFactor n : ℝ) (_hn : 0 ≤ n) :
    getLineLength scaleFactor n = n * scaleFactor ∧
    getCircleRadius scaleFactor n = getLineLength scaleFactor n / (2 * Real.pi) := by
  exact ⟨rfl, rfl⟩

/-- Witness for Claim C7 at `scaleFactor = 2`, `n = 3`. -/
theorem line_length_and_circle_radius_laws_witness :
    ((0 : ℝ) ≤ 3) ∧
    (getLineLength 2 3 = 3 * 2 ∧
      getCircleRadius 2 3 = getLineLength 2 3 / (2 * Real.pi)) :=
  ⟨by norm_num, line_length_and_circle_radius_laws 2 3 (by norm_num)⟩

/-! ### Phase 2: 1D linear offsets (`calculate1DLinearOffsets`)

`node-allocation.js` lines 149-163, with the `LinearSpaceSegment` and
`SpaceBlock` classes (lines 284-308).  Only the 1D fields of
`LinearSpaceSegment` matter here; the 1D coordinates are exact
rationals. -/

/-- The 1D extent of a `LinearSpaceSegment` (node-allocation.js lines
284-292): `begin` and `end = begin + line.length`. -/
structure LinearSpaceSegment where
  segBegin : ℚ
  segEnd : ℚ
deriving DecidableEq, Repr

instance : Inhabited LinearSpaceSegment :=
  ⟨⟨0, 0⟩⟩

/-- `LinearSpaceSegment.contains1DPoint` (node-allocation.js lines
293-295): `this.begin < offset && offset < this.end` — strict on both
ends. -/
def contains1DPoint (segment : LinearSpaceSegment) (offset : ℚ) : Bool :=
  decide (segment.segBegin < offset) && decide (offset < segment.segEnd)

/-- A `SpaceBlock` (node-allocation.js lines 301-308): `end = begin +
length`, `center = begin + length / 2`. -/
structure SpaceBlock where
  blkBegin : ℚ
  blkEnd : ℚ
  blkCenter : ℚ
deriving DecidableEq, Repr

/-- The `SpaceBlock` constructor (node-allocation.js lines 302-307). -/
def SpaceBlock.make (blockBegin blockLength : ℚ) : SpaceBlock :=
  ⟨blockBegin, blockBegin + blockLength, blockBegin + blockLength / 2⟩

/-- The leaf comparator of node-allocation.js line 152: sort by index in
the caller-supplied `layout.positioning.order` list (leaves are modelled
by their numeric ids). -/
def displayOrderLE (order : List Nat) (leafA leafB : Nat) : Prop :=
  order.indexOf leafA ≤ order.indexOf leafB

instance (order : List Nat) : DecidableRel (displayOrderLE order) :=
  fun _ _ => Nat.decLe _ _

instance (order : List Nat) : IsTotal Nat (displayOrderLE order) :=
  ⟨fun a b => Nat.le_total (order.indexOf a) (order.indexOf b)⟩

instance (order : List Nat) : IsTrans Nat (displayOrderLE order) :=
  ⟨fun _ _ _ hab hbc => Nat.le_trans hab hbc⟩

/-- `arrangedLeaves` (node-allocation.js line 153): the leaves sorted
into the caller-supplied display order (a stable sort by the
comparator). -/
def arrangedLeaves (order : List Nat) (leaves : List Nat) : List Nat :=
  leaves.insertionSort (displayOrderLE order)

/-- The loop of `NodeAllocation.calculate1DLinearOffsets`
(node-allocation.js lines 154-162), over the units (in display order) of
the arranged leaves: each leaf gets a `SpaceBlock` of width
`units * total1DSpaceAvailable` starting at the previous block's end
(the first at the first segment's `begin`, supplied as `blockStart`),
its `offset` is the block's `center` (the `blkCenter` field of the
output), and the block is pushed onto
`segments.find(segment => segment.contains1DPoint(currentBlock.center))`;
when `find` yields no segment the run fails (`none`), as the code
dereferences `undefined`. -/
def calculate1DLinearOffsets (segments : List LinearSpaceSegment)
    (total1DSpaceAvailable : ℚ) :
    ℚ → List ℚ → Option (List (SpaceBlock × LinearSpaceSegment))
  | _, [] => some []
  | blockStart, units :: rest =>
      match segments.find? (fun segment =>
          contains1DPoint segment
            (SpaceBlock.make blockStart (units * total1DSpaceAvailable)).blkCenter) with
      | none => none
      | some currentSegment =>
          (calculate1DLinearOffsets segments total1DSpaceAvailable
              (SpaceBlock.make blockStart (units * total1DSpaceAvailable)).blkEnd rest).map
            (fun tail =>
              (SpaceBlock.make blockStart (units * total1DSpaceAvailable),
                currentSegment) :: tail)

/-- Consecutive segments starting at `b`: each segment begins where the
previous one ends (as `initializeSegments` lays them out), with
nonnegative extent. -/
def consecutiveFrom (b : ℚ) : List LinearSpaceSegment → Bool
  | [] => true
  | s :: rest =>
      decide (s.segBegin = b) && decide (s.segBegin ≤ s.segEnd) && consecutiveFrom s.segEnd rest

lemma consecutiveFrom_cons {b : ℚ} {s : LinearSpaceSegment} {rest : List LinearSpaceSegment}
    (h : consecutiveFrom b (s :: rest) = true) :
    s.segBegin = b ∧ s.segBegin ≤ s.segEnd ∧ consecutiveFrom s.segEnd rest = true := by
  simp only [consecutiveFrom, Bool.and_eq_true, decide_eq_true_eq] at h
  exact ⟨h.1.1, h.1.2, h.2⟩

lemma contains_false_left {t : LinearSpaceSegment} {c : ℚ} (h : ¬ t.segBegin < c) :
    contains1DPoint t c = false := by
  unfold contains1DPoint
  rw [decide_eq_false h, Bool.false_and]

lemma contains_false_right {t : LinearSpaceSegment} {c : ℚ} (h : ¬ c < t.segEnd) :
    contains1DPoint t c = false := by
  unfold contains1DPoint
  rw [decide_eq_false h, Bool.and_false]

lemma contains_true_iff {t : LinearSpaceSegment} {c : ℚ} :
    contains1DPoint t c = true ↔ t.segBegin < c ∧ c < t.segEnd := by
  unfold contains1DPoint
  simp [Bool.and_eq_true, decide_eq_true_eq]

lemma consecutive_begin_le (b : ℚ) (segs : List LinearSpaceSegment)
    (hcons : consecutiveFrom b segs = true) :
    ∀ t ∈ segs, b ≤ t.segBegin := by
  induction segs generalizing b with
  | nil => intro t ht; simp at ht
  | cons s rest ih =>
      obtain ⟨hb, hle, hrest⟩ := consecutiveFrom_cons hcons
      intro t ht
      rcases List.mem_cons.mp ht with rfl | hmem
      · exact hb.symm.le
      · exact le_trans (le_trans hb.symm.le hle) (ih s.segEnd hrest t hmem)

lemma not_contains_of_le_begin (b c : ℚ) (segs : List LinearSpaceSegment)
    (hcons : consecutiveFrom b segs = true) (hc : c ≤ b) :
    ∀ t ∈ segs, contains1DPoint t c = false := by
  intro t ht
  exact contains_false_left (not_lt.mpr (hc.trans (consecutive_begin_le b segs hcons t ht)))

lemma boundary_ge (b c : ℚ) (segs : List LinearSpaceSegment)
    (hcons : consecutiveFrom b segs = true)
    (hb : ∃ s ∈ segs, c = s.segBegin ∨ c = s.segEnd) : b ≤ c := by
  induction segs generalizing b with
  | nil => simp at hb
  | cons s rest ih =>
      obtain ⟨hbeq, hle, hrest⟩ := consecutiveFrom_cons hcons
      obtain ⟨t, ht, hor⟩ := hb
      rcases List.mem_cons.mp ht with rfl | hmem
      · rcases hor with h | h
        · rw [h, hbeq]
        · rw [h]; exact le_trans (le_trans hbeq.symm.le hle) le_rfl
      · exact le_trans (le_trans hbeq.symm.le hle) (ih s.segEnd hrest ⟨t, hmem, hor⟩)

lemma boundary_not_contained (b c : ℚ) (segs : List LinearSpaceSegment)
    (hcons : consecutiveFrom b segs = true)
    (hb : ∃ s ∈ segs, c = s.segBegin ∨ c = s.segEnd) :
    ∀ t ∈ segs, contains1DPoint t c = false := by
  induction segs generalizing b with
  | nil => intro t ht; simp at ht
  | cons s rest ih =>
      obtain ⟨hbeq, hle, hrest⟩ := consecutiveFrom_cons hcons
      obtain ⟨u, hu, hor⟩ := hb
      intro t ht
      rcases List.mem_cons.mp ht with rfl | hmem
      · rcases List.mem_cons.mp hu with rfl | humem
        · rcases hor with h | h
          · exact contains_false_left (by rw [h]; exact lt_irrefl _)
          · exact contains_false_right (by rw [h]; exact lt_irrefl _)
        · exact contains_false_right
            (not_lt.mpr (boundary_ge t.segEnd c rest hrest ⟨u, humem, hor⟩))
      · rcases List.mem_cons.mp hu with rfl | humem
        · rcases hor with h | h
          · exact not_contains_of_le_begin u.segEnd c rest hrest
              (le_trans h.le hle) t hmem
          · exact not_contains_of_le_begin u.segEnd c rest hrest h.le t hmem
        · exact ih s.segEnd hrest ⟨u, humem, hor⟩ t hmem

lemma find_of_contains (b c : ℚ) (segs : List LinearSpaceSegment)
    (hcons : consecutiveFrom b segs = true)
    (t : LinearSpaceSegment) (ht : t ∈ segs) (hcont : contains1DPoint t c = true) :
    segs.find? (fun s => contains1DPoint s c) = some t := by
  induction segs generalizing b with
  | nil => simp at ht
  | cons s rest ih =>
      obtain ⟨hbeq, hle, hrest⟩ := consecutiveFrom_cons hcons
      rcases List.mem_cons.mp ht with rfl | hmem
      · exact List.find?_cons_of_pos rest hcont
      · have hbegin : s.segEnd ≤ t.segBegin := consecutive_begin_le s.segEnd rest hrest t hmem
        have htb : t.segBegin < c := (contains_true_iff.mp hcont).1
        have hsc : contains1DPoint s c = false :=
          contains_false_right (not_lt.mpr (le_of_lt (lt_of_le_of_lt hbegin htb)))
        rw [List.find?_cons_of_neg rest (by simp [hsc])]
        exact ih s.segEnd hrest hmem

/-- Claim C10: `contains1DPoint` is strict on both ends.  For
consecutive segments laid out from 0 (as `initializeSegments` produces),
a `SpaceBlock` whose center is strictly inside a segment's `(begin,
end)` interval is assigned to that (unique) segment by the
`segments.find` lookup of `calculate1DLinearOffsets`, while a center
falling exactly on any segment boundary (including 0 and the total
perimeter length) matches no segment, the lookup yields no result, and
the allocation run fails instead of completing. -/
theorem segment_containment_strict (segs : List LinearSpaceSegment) (c : ℚ)
    (hcons : consecutiveFrom 0 segs = true) :
    ((∃ s ∈ segs, c = s.segBegin ∨ c = s.segEnd) →
      segs.find? (fun s => contains1DPoint s c) = none) ∧
    (∀ t ∈ segs, contains1DPoint t c = true →
      segs.find? (fun s => contains1DPoint s c) = some t ∧
      ∀ u ∈ segs, contains1DPoint u c = true → u = t) ∧
    (∀ (total blockStart units : ℚ) (rest : List ℚ),
      (SpaceBlock.make blockStart (units * total)).blkCenter = c →
      segs.find? (fun s => contains1DPoint s c) = none →
      calculate1DLinearOffsets segs total blockStart (units :: rest) = none) := by
  refine ⟨?_, ?_, ?_⟩
  · intro hb
    exact List.find?_eq_none.mpr fun t ht =>
      by simp [boundary_not_contained 0 c segs hcons hb t ht]
  · intro t ht hcont
    refine ⟨find_of_contains 0 c segs hcons t ht hcont, ?_⟩
    intro u hu hucont
    have h1 := find_of_contains 0 c segs hcons u hu hucont
    have h2 := find_of_contains 0 c segs hcons t ht hcont
    exact Option.some.inj (h1.symm.trans h2)
  · intro total blockStart units rest hcenter hfind
    simp only [calculate1DLinearOffsets, hcenter, hfind]

/-- Witness for Claim C10 at two consecutive segments `(0,4)` and
`(4,10)` and the boundary / interior points 4: the theorem applied to
that configuration. -/
theorem segment_containment_strict_witness :
    (consecutiveFrom 0 [(⟨0, 4⟩ : LinearSpaceSegment), ⟨4, 10⟩] = true) ∧
    (((∃ s ∈ [(⟨0, 4⟩ : LinearSpaceSegment), ⟨4, 10⟩], (4 : ℚ) = s.segBegin ∨ (4 : ℚ) = s.segEnd) →
      [(⟨0, 4⟩ : LinearSpaceSegment), ⟨4, 10⟩].find? (fun s => contains1DPoint s 4) = none) ∧
    (∀ t ∈ [(⟨0, 4⟩ : LinearSpaceSegment), ⟨4, 10⟩], contains1DPoint t 4 = true →
      [(⟨0, 4⟩ : LinearSpaceSegment), ⟨4, 10⟩].find? (fun s => contains1DPoint s 4) = some t ∧
      ∀ u ∈ [(⟨0, 4⟩ : LinearSpaceSegment), ⟨4, 10⟩], contains1DPoint u 4 = true → u = t) ∧
    (∀ (total blockStart units : ℚ) (rest : List ℚ),
      (SpaceBlock.make blockStart (units * total)).blkCenter = 4 →
      [(⟨0, 4⟩ : LinearSpaceSegment), ⟨4, 10⟩].find? (fun s => contains1DPoint s 4) = none →
      calculate1DLinearOffsets [(⟨0, 4⟩ : LinearSpaceSegment), ⟨4, 10⟩] total blockStart
        (units :: rest) = none)) :=
  ⟨by decide, segment_containment_strict [⟨0, 4⟩, ⟨4, 10⟩] 4 (by decide)⟩

lemma alloc_output_spec (segs : List LinearSpaceSegment) (total b : ℚ)
    (hcons : consecutiveFrom b segs = true) :
    ∀ (units : List ℚ) (blockStart : ℚ) (out : List (SpaceBlock × LinearSpaceSegment)),
      calculate1DLinearOffsets segs total blockStart units = some out →
      out.length = units.length ∧
      (∀ p ∈ out.head?, p.1.blkBegin = blockStart) ∧
      List.Chain' (fun p q => q.1.blkBegin = p.1.blkEnd) out ∧
      (∀ pu ∈ out.zip units,
        pu.1.1.blkEnd = pu.1.1.blkBegin + pu.2 * total ∧
        pu.1.1.blkCenter = pu.1.1.blkBegin + (pu.2 * total) / 2) ∧
      (∀ p ∈ out, p.2 ∈ segs ∧ contains1DPoint p.2 p.1.blkCenter = true ∧
        ∀ u ∈ segs, contains1DPoint u p.1.blkCenter = true → u = p.2) := by
  intro units
  induction units with
  | nil =>
      intro blockStart out h
      simp only [calculate1DLinearOffsets, Option.some.injEq] at h
      subst h
      simp
  | cons u rest ih =>
      intro blockStart out h
      simp only [calculate1DLinearOffsets] at h
      cases hfind : segs.find? (fun segment =>
          contains1DPoint segment (SpaceBlock.make blockStart (u * total)).blkCenter) with
      | none => rw [hfind] at h; simp at h
      | some currentSegment =>
          rw [hfind] at h
          rw [Option.map_eq_some'] at h
          obtain ⟨tail, htail, hout⟩ := h
          obtain ⟨hlen, hhead, hchain, hzip, hassign⟩ := ih _ tail htail
          subst hout
          refine ⟨by simp [hlen], ?_, ?_, ?_, ?_⟩
          · intro p hp
            simp only [List.head?_cons, Option.mem_def, Option.some.injEq] at hp
            subst hp
            rfl
          · exact List.chain'_cons'.mpr ⟨fun q hq => hhead q hq, hchain⟩
          · intro pu hpu
            rw [List.zip_cons_cons] at hpu
            rcases List.mem_cons.mp hpu with rfl | hmem
            · constructor <;> rfl
            · exact hzip pu hmem
          · intro p hp
            rcases List.mem_cons.mp hp with rfl | hmem
            · exact ⟨List.mem_of_find?_eq_some hfind, by simpa using List.find?_some hfind,
                fun v hv hvcont => Option.some.inj
                  ((find_of_contains b _ segs hcons v hv hvcont).symm.trans hfind)⟩
            · exact hassign p hmem

/-- Claim C5: during the 1D-offset phase, the leaves are visited in the
caller-supplied display order (the arranged list is a permutation of the
leaves, sorted by the `layout.positioning.order` comparator); each
leaf's `SpaceBlock` starts where the previous leaf's block ends, the
first starting at the first segment's `begin`, with width
`units × total1DSpaceAvailable`; each leaf's `offset` is its block's
center (`center = begin + width / 2`); and the block is assigned to the
segment whose open interval strictly contains that center (that segment
belongs to the segment list, contains the center, and is the only one
that does). -/
theorem display_order_1D_offsets_spec
    (order leaves : List Nat) (unitsOf : Nat → ℚ)
    (segs : List LinearSpaceSegment) (total : ℚ)
    (out : List (SpaceBlock × LinearSpaceSegment))
    (hcons : consecutiveFrom (segs.headD default).segBegin segs = true)
    (hrun : calculate1DLinearOffsets segs total (segs.headD default).segBegin
      ((arrangedLeaves order leaves).map unitsOf) = some out) :
    List.Perm (arrangedLeaves order leaves) leaves ∧
    List.Sorted (displayOrderLE order) (arrangedLeaves order leaves) ∧
    out.length = leaves.length ∧
    (∀ p ∈ out.head?, p.1.blkBegin = (segs.headD default).segBegin) ∧
    List.Chain' (fun p q => q.1.blkBegin = p.1.blkEnd) out ∧
    (∀ pu ∈ out.zip ((arrangedLeaves order leaves).map unitsOf),
      pu.1.1.blkEnd = pu.1.1.blkBegin + pu.2 * total ∧
      pu.1.1.blkCenter = pu.1.1.blkBegin + (pu.2 * total) / 2) ∧
    (∀ p ∈ out, p.2 ∈ segs ∧ contains1DPoint p.2 p.1.blkCenter = true ∧
      ∀ u ∈ segs, contains1DPoint u p.1.blkCenter = true → u = p.2) := by
  obtain ⟨hlen, hhead, hchain, hzip, hassign⟩ :=
    alloc_output_spec segs total (segs.headD default).segBegin hcons
      ((arrangedLeaves order leaves).map unitsOf) (segs.headD default).segBegin out hrun
  refine ⟨List.perm_insertionSort (displayOrderLE order) leaves,
    List.sorted_insertionSort (displayOrderLE order) leaves, ?_, hhead, hchain, hzip, hassign⟩
  rw [hlen, List.length_map]
  exact (List.perm_insertionSort (displayOrderLE order) leaves).length_eq

/-- Concrete display order for the Claim C5 witness. -/
def sampleOrder : List Nat :=
  [7, 3]

/-- Concrete leaf ids for the Claim C5 witness (out of display order). -/
def sampleLeaves : List Nat :=
  [3, 7]

/-- Concrete per-leaf units for the Claim C5 witness. -/
def sampleUnits : Nat → ℚ :=
  fun leafId => if leafId = 7 then 1 / 5 else 1 / 2

/-- Concrete consecutive segments for the Claim C5 witness. -/
def sampleSegments : List LinearSpaceSegment :=
  [⟨0, 4⟩, ⟨4, 10⟩]

/-- Expected output of the 1D-offset phase for the Claim C5 witness. -/
def sampleOut : List (SpaceBlock × LinearSpaceSegment) :=
  [(⟨0, 2, 1⟩, ⟨0, 4⟩), (⟨2, 7, 9 / 2⟩, ⟨4, 10⟩)]

/-- Witness for Claim C5: leaves `[3, 7]` with display order `[7, 3]`,
units `1/5` and `1/2`, total perimeter length 10 over segments `(0,4)`
and `(4,10)`. -/
theorem display_order_1D_offsets_spec_witness :
    (consecutiveFrom (sampleSegments.headD default).segBegin sampleSegments = true) ∧
    (calculate1DLinearOffsets sampleSegments 10 (sampleSegments.headD default).segBegin
      ((arrangedLeaves sampleOrder sampleLeaves).map sampleUnits) = some sampleOut) ∧
    (List.Perm (arrangedLeaves sampleOrder sampleLeaves) sampleLeaves ∧
    List.Sorted (displayOrderLE sampleOrder) (arrangedLeaves sampleOrder sampleLeaves) ∧
    sampleOut.length = sampleLeaves.length ∧
    (∀ p ∈ sampleOut.head?, p.1.blkBegin = (sampleSegments.headD default).segBegin) ∧
    List.Chain' (fun p q => q.1.blkBegin = p.1.blkEnd) sampleOut ∧
    (∀ pu ∈ sampleOut.zip ((arrangedLeaves sampleOrder sampleLeaves).map sampleUnits),
      pu.1.1.blkEnd = pu.1.1.blkBegin + pu.2 * 10 ∧
      pu.1.1.blkCenter = pu.1.1.blkBegin + (pu.2 * 10) / 2) ∧
    (∀ p ∈ sampleOut, p.2 ∈ sampleSegments ∧ contains1DPoint p.2 p.1.blkCenter = true ∧
      ∀ u ∈ sampleSegments, contains1DPoint u p.1.blkCenter = true → u = p.2)) :=
  ⟨by decide,
    by norm_num [arrangedLeaves, sampleOrder, sampleLeaves, List.insertionSort,
      List.orderedInsert, displayOrderLE, sampleUnits, sampleSegments, sampleOut,
      calculate1DLinearOffsets, SpaceBlock.make, contains1DPoint, List.find?],
    display_order_1D_offsets_spec sampleOrder sampleLeaves sampleUnits sampleSegments 10
      sampleOut (by decide)
      (by norm_num [arrangedLeaves, sampleOrder, sampleLeaves, List.insertionSort,
        List.orderedInsert, displayOrderLE, sampleUnits, sampleSegments, sampleOut,
        calculate1DLinearOffsets, SpaceBlock.make, contains1DPoint, List.find?])⟩

/-! ### 2D geometry: phases 3-5 and the perimeter

2D positions are real points.  The consumed geometry primitive
(`LineCoordinates`, external to the core per spec sections 2 and 6) is
modelled from the spec: `.length` of a 2-point segment and
`.pointAtLength(d) -> {x, y}` at distance `d` from the first endpoint
toward the second. -/

/-- A 2D position `{x, y}`. -/
structure Pt where
  x : ℝ
  y : ℝ

/-- Modelled from the spec: the `.length` of the external geometry
primitive over a 2-point segment (spec section 6), the Euclidean length
from `(x1, y1)` to `(x2, y2)`. -/
noncomputable def lineLength (x1 y1 x2 y2 : ℝ) : ℝ :=
  Real.sqrt ((x2 - x1) ^ 2 + (y2 - y1) ^ 2)

/-- Modelled from the spec: `LineCoordinates.pointAtLength(d)` of the
external geometry primitive (spec section 6) — the point at distance
`len` from `(x1, y1)` along the direction toward `(x2, y2)`. -/
noncomputable def pointAtLength (x1 y1 x2 y2 len : ℝ) : Pt :=
  ⟨x1 + len * ((x2 - x1) / lineLength x1 y1 x2 y2),
   y1 + len * ((y2 - y1) / lineLength x1 y1 x2 y2)⟩

lemma lineLength_pos (x1 y1 x2 y2 : ℝ) (hne : x2 ≠ x1 ∨ y2 ≠ y1) :
    0 < lineLength x1 y1 x2 y2 := by
  apply Real.sqrt_pos.mpr
  rcases hne with h | h
  · have hx : x2 - x1 ≠ 0 := sub_ne_zero.mpr h
    nlinarith [sq_nonneg (y2 - y1), sq_pos_of_ne_zero hx]
  · have hy : y2 - y1 ≠ 0 := sub_ne_zero.mpr h
    nlinarith [sq_nonneg (x2 - x1), sq_pos_of_ne_zero hy]

lemma pointAtLength_dist (x1 y1 x2 y2 d : ℝ) (hne : x2 ≠ x1 ∨ y2 ≠ y1) (hd : 0 ≤ d) :
    lineLength x1 y1 (pointAtLength x1 y1 x2 y2 d).x (pointAtLength x1 y1 x2 y2 d).y = d := by
  have hL : 0 < lineLength x1 y1 x2 y2 := lineLength_pos x1 y1 x2 y2 hne
  have hL2 : lineLength x1 y1 x2 y2 ^ 2 = (x2 - x1) ^ 2 + (y2 - y1) ^ 2 := by
    unfold lineLength
    exact Real.sq_sqrt (by positivity)
  have harg : ((pointAtLength x1 y1 x2 y2 d).x - x1) ^ 2
      + ((pointAtLength x1 y1 x2 y2 d).y - y1) ^ 2 = d ^ 2 := by
    simp only [pointAtLength]
    field_simp
    linear_combination d ^ 2 * hL2.symm
  unfold lineLength
  rw [harg]
  exact Real.sqrt_sq hd

lemma pointAtLength_on_ray (x1 y1 x2 y2 d : ℝ) (hne : x2 ≠ x1 ∨ y2 ≠ y1) (hd : 0 ≤ d) :
    ∃ t : ℝ, 0 ≤ t ∧ (pointAtLength x1 y1 x2 y2 d).x = x1 + t * (x2 - x1) ∧
      (pointAtLength x1 y1 x2 y2 d).y = y1 + t * (y2 - y1) := by
  have hL : 0 < lineLength x1 y1 x2 y2 := lineLength_pos x1 y1 x2 y2 hne
  refine ⟨d / lineLength x1 y1 x2 y2, div_nonneg hd hL.le, ?_, ?_⟩ <;>
    · simp only [pointAtLength]
      field_simp

/-- The placement-mode enum of `NodeAllocation` (node-allocation.js
lines 254-259). -/
inductive PlacementMode where
  | LENGTH_CONSTRAINED
  | SPIDER
deriving DecidableEq

/-- `NodeAllocation.getRootPosition` (node-allocation.js lines 248-253):
`x = svgWidth / 2`, `y = svgDistanceFromEdge + nodeDiameter / 2`. -/
noncomputable def getRootPosition (svgWidth svgDistanceFromEdge nodeDiameter : ℝ) : Pt :=
  ⟨svgWidth / 2, svgDistanceFromEdge + nodeDiameter / 2⟩

/-- The `leafCenter` computation of `calculate2DMidpointCoordinates`
(node-allocation.js lines 212-221): a `reduce` summing the in-subset
descendant-leaf positions from `{x: 0, y: 0}`, then division of both
components by the number of those leaves. -/
noncomputable def leafCenterOf (leafPositions : List Pt) : Pt :=
  let combined := leafPositions.foldl
    (fun combinedPosition nodePosition =>
      Pt.mk (combinedPosition.x + nodePosition.x) (combinedPosition.y + nodePosition.y))
    ⟨0, 0⟩
  ⟨combined.x / leafPositions.length, combined.y / leafPositions.length⟩

/-- `NodeAllocation.calculate2DMidpointCoordinates` for one midpoint
(node-allocation.js lines 196-246).  `parentInSubset` is the
`this.layoutNodes.get(midPoint.parentId)` lookup (line 202);
`leafPositions` are the positions of the midpoint's own descendant
leaves present in the active subset (lines 210-211).  The
`validateStat(leafPositions.length, ..., { aboveZero: true })` call
(line 219; `validateStat`/`validateNumber` are external, modelled from
spec sections 6-7: a zero divisor raises a ValidationError and the run
aborts) is modelled by returning `none` when there are no in-subset
descendant leaves.  In `LENGTH_CONSTRAINED` mode the midpoint is placed
at `pointAtLength(parentRadius + ownBetween + thisRadius)` along the
line from the parent position to the leaf centroid (lines 226-235); in
`SPIDER` mode at `combinedCenter` (lines 237-243), which the code
computes as `leafCenter + parentPosition / 2` componentwise. -/
noncomputable def calculate2DMidpointPosition (placementMode : PlacementMode)
    (svgWidth svgDistanceFromEdge : ℝ) (parentInSubset : Bool) (ownDiameter : ℝ)
    (leafPositions : List Pt) (parentPosition : Pt)
    (parentDiameter ownBetween : ℝ) : Option Pt :=
  if parentInSubset = false then
    some (getRootPosition svgWidth svgDistanceFromEdge ownDiameter)
  else if leafPositions.length = 0 then
    none
  else
    match placementMode with
    | .LENGTH_CONSTRAINED =>
        some (pointAtLength parentPosition.x parentPosition.y
          (leafCenterOf leafPositions).x (leafCenterOf leafPositions).y
          (parentDiameter / 2 + ownBetween + ownDiameter / 2))
    | .SPIDER =>
        some ⟨(leafCenterOf leafPositions).x + parentPosition.x / 2,
          (leafCenterOf leafPositions).y + parentPosition.y / 2⟩

/-- `NodeAllocation.constrain2DLeafCoordinates` for one leaf
(node-allocation.js lines 176-195): re-place the leaf at
`line.pointAtLength(parentRadius + lineLength + thisRadius)` on the line
from the parent's final position (`parentPosition`) through the leaf's
phase-3 raw position (`rawPosition`), where `parentRadius =
parentDiameter / 2`, `lineLength = ownBetween` and `thisRadius =
ownDiameter / 2`. -/
noncomputable def constrain2DLeafCoordinates (parentPosition rawPosition : Pt)
    (parentDiameter ownDiameter ownBetween : ℝ) : Pt :=
  pointAtLength parentPosition.x parentPosition.y rawPosition.x rawPosition.y
    (parentDiameter / 2 + ownBetween + ownDiameter / 2)

/-- Claim C4: in LENGTH_CONSTRAINED mode, after the leaf re-anchoring
phase, the leaf lies on the ray from its immediate parent's final
position through the leaf's phase-3 raw position, at distance exactly
`parentRadius + ownBetween + ownRadius` from the parent's final
position (provided the raw position differs from the parent position,
so the line has a direction, and the validated distance is
nonnegative). -/
theorem leaf_reanchoring_exact_distance (parentPosition rawPosition : Pt)
    (parentDiameter ownDiameter ownBetween : ℝ)
    (hne : rawPosition.x ≠ parentPosition.x ∨ rawPosition.y ≠ parentPosition.y)
    (hd : 0 ≤ parentDiameter / 2 + ownBetween + ownDiameter / 2) :
    lineLength parentPosition.x parentPosition.y
        (constrain2DLeafCoordinates parentPosition rawPosition
          parentDiameter ownDiameter ownBetween).x
        (constrain2DLeafCoordinates parentPosition rawPosition
          parentDiameter ownDiameter ownBetween).y
      = parentDiameter / 2 + ownBetween + ownDiameter / 2 ∧
    ∃ t : ℝ, 0 ≤ t ∧
      (constrain2DLeafCoordinates parentPosition rawPosition
          parentDiameter ownDiameter ownBetween).x
        = parentPosition.x + t * (rawPosition.x - parentPosition.x) ∧
      (constrain2DLeafCoordinates parentPosition rawPosition
          parentDiameter ownDiameter ownBetween).y
        = parentPosition.y + t * (rawPosition.y - parentPosition.y) :=
  ⟨pointAtLength_dist parentPosition.x parentPosition.y rawPosition.x rawPosition.y
      (parentDiameter / 2 + ownBetween + ownDiameter / 2) hne hd,
    pointAtLength_on_ray parentPosition.x parentPosition.y rawPosition.x rawPosition.y
      (parentDiameter / 2 + ownBetween + ownDiameter / 2) hne hd⟩

/-- Witness for Claim C4: parent final position (0, 0), phase-3 raw
position (3, 4), parent diameter 4, own diameter 8, own scaled edge
length 4, so the exact distance is `4/2 + 4 + 8/2 = 10`. -/
theorem leaf_reanchoring_exact_distance_witness :
    ((Pt.mk 3 4).x ≠ (Pt.mk 0 0).x ∨ (Pt.mk 3 4).y ≠ (Pt.mk 0 0).y) ∧
    ((0 : ℝ) ≤ 4 / 2 + 4 + 8 / 2) ∧
    (lineLength (Pt.mk 0 0).x (Pt.mk 0 0).y
        (constrain2DLeafCoordinates ⟨0, 0⟩ ⟨3, 4⟩ 4 8 4).x
        (constrain2DLeafCoordinates ⟨0, 0⟩ ⟨3, 4⟩ 4 8 4).y
      = 4 / 2 + 4 + 8 / 2 ∧
    ∃ t : ℝ, 0 ≤ t ∧
      (constrain2DLeafCoordinates ⟨0, 0⟩ ⟨3, 4⟩ 4 8 4).x
        = (Pt.mk 0 0).x + t * ((Pt.mk 3 4).x - (Pt.mk 0 0).x) ∧
      (constrain2DLeafCoordinates ⟨0, 0⟩ ⟨3, 4⟩ 4 8 4).y
        = (Pt.mk 0 0).y + t * ((Pt.mk 3 4).y - (Pt.mk 0 0).y)) :=
  ⟨Or.inl (by norm_num), by norm_num,
    leaf_reanchoring_exact_distance ⟨0, 0⟩ ⟨3, 4⟩ 4 8 4 (Or.inl (by norm_num)) (by norm_num)⟩

/-- Claim C6: a midpoint whose parent is absent from the active node
subset is placed at the fixed top-center anchor `x = svgWidth / 2`,
`y = svgDistanceFromEdge + ownDiameter / 2`, under either placement
mode and independently of its descendant leaves and parent data
(node-allocation.js lines 202-207 and 248-253). -/
theorem root_in_subset_midpoint_anchor (placementMode : PlacementMode)
    (svgWidth svgDistanceFromEdge ownDiameter : ℝ) (leafPositions : List Pt)
    (parentPosition : Pt) (parentDiameter ownBetween : ℝ) :
    calculate2DMidpointPosition placementMode svgWidth svgDistanceFromEdge false ownDiameter
        leafPositions parentPosition parentDiameter ownBetween
      = some ⟨svgWidth / 2, svgDistanceFromEdge + ownDiameter / 2⟩ :=
  rfl

/-- Claim C8: positioning a non-root midpoint (parent present in the
subset) whose set of in-subset descendant leaves is empty fails the
`aboveZero` validation of the leaf-centroid divisor before any division
is performed, and the run aborts (`none`) rather than producing a
position, under either placement mode (node-allocation.js lines
210-221). -/
theorem empty_descendant_leaves_abort (placementMode : PlacementMode)
    (svgWidth svgDistanceFromEdge ownDiameter : ℝ) (parentPosition : Pt)
    (parentDiameter ownBetween : ℝ) :
    calculate2DMidpointPosition placementMode svgWidth svgDistanceFromEdge true ownDiameter
        [] parentPosition parentDiameter ownBetween = none :=
  rfl

/-- Claim C2 (code evaluation at a failing input): in SPIDER mode the
code computes `combinedCenter` as `leafCenter + parentPosition / 2`
componentwise (node-allocation.js lines 238-241; the expression
`leafCenter.x + parentPosition.x / 2` lacks the parentheses the
unweighted blend `(leafCenter.x + parentPosition.x) / 2` named by
`combinedCenter` would need).  With a single descendant leaf at (2, 0)
and parent position (0, 0), the leaf centroid is (2, 0) and the code
places the midpoint at (2, 0), whereas the unweighted blend
(arithmetic average) of centroid and parent position is (1, 0). -/
theorem spider_placement_not_unweighted_blend :
    calculate2DMidpointPosition .SPIDER 1000 30 true 8 [⟨2, 0⟩] ⟨0, 0⟩ 4 5
      = some ⟨2, 0⟩ ∧
    ((2 : ℝ) + 0) / 2 = 1 ∧ (2 : ℝ) ≠ ((2 : ℝ) + 0) / 2 := by
  refine ⟨?_, by norm_num, by norm_num⟩
  simp [calculate2DMidpointPosition, leafCenterOf]

/-! ### Perimeter construction (`threeSided` and `initializeSegments`) -/

/-- One border coordinate record `{x1, y1, x2, y2}` as produced by the
coordinate generator (node-allocation.js lines 55-59). -/
structure BorderCoordinate where
  x1 : ℝ
  y1 : ℝ
  x2 : ℝ
  y2 : ℝ
deriving Inhabited

/-- The `line.length` of a border coordinate (`new
LineCoordinates(coordinate)`, node-allocation.js line 36). -/
noncomputable def coordinateLength (coordinate : BorderCoordinate) : ℝ :=
  lineLength coordinate.x1 coordinate.y1 coordinate.x2 coordinate.y2

/-- The `largestRootDiameter` reduction of `NodeAllocation.threeSided`
(node-allocation.js lines 46-47): `Math.max` over the roots' scaled own
diameters, starting from 0. -/
def largestRootDiameter (rootDiameters : List ℝ) : ℝ :=
  rootDiameters.foldl max 0

/-- `NodeAllocation.threeSided` (node-allocation.js lines 43-61): the
left, bottom and right border coordinates, with `top =
svgDistanceFromEdge + Math.max(finalSvgHeight * 0.2,
largestRootDiameter)`, `bottom = finalSvgHeight - svgDistanceFromEdge`,
`left = svgDistanceFromEdge`, `right = svgWidth -
svgDistanceFromEdge`. -/
noncomputable def threeSided (svgWidth svgDistanceFromEdge finalSvgHeight : ℝ)
    (rootDiameters : List ℝ) : List BorderCoordinate :=
  let top := svgDistanceFromEdge
    + max (finalSvgHeight * 0.2) (largestRootDiameter rootDiameters)
  let bottom := finalSvgHeight - svgDistanceFromEdge
  let left := svgDistanceFromEdge
  let right := svgWidth - svgDistanceFromEdge
  [⟨left, top, left, bottom⟩, ⟨left, bottom, right, bottom⟩, ⟨right, bottom, right, top⟩]

/-- The 1D extent of a perimeter segment as built by
`initializeSegments` (the `begin`/`end` fields of `LinearSpaceSegment`,
node-allocation.js lines 284-292, over real coordinates). -/
structure PerimeterSegment where
  segBegin : ℝ
  segEnd : ℝ
deriving Inhabited

/-- `NodeAllocation.initializeSegments` (node-allocation.js lines
31-42): each segment begins at the previous segment's `end` (the first
at 0) and ends `line.length` later. -/
noncomputable def initializeSegments : ℝ → List BorderCoordinate → List PerimeterSegment
  | _, [] => []
  | b, coordinate :: rest =>
      PerimeterSegment.mk b (b + coordinateLength coordinate)
        :: initializeSegments (b + coordinateLength coordinate) rest

/-- The `total1DSpaceAvailable` accumulator of `initializeSegments`
(node-allocation.js lines 33 and 40): the sum of the coordinate
lengths. -/
noncomputable def total1DSpaceAvailable (coordinates : List BorderCoordinate) : ℝ :=
  (coordinates.map coordinateLength).sum

/-- Claim C9: the default three-sided perimeter places its top
clearance at `svgDistanceFromEdge + max(0.2 × finalSvgHeight,
largest root own scaled diameter)` (the `y1` of the first border
coordinate), and the three border segments are laid end-to-end in 1D —
the first segment begins at 0 and each segment's begin equals the
previous segment's end — so the total 1D space available equals the sum
of the three segments' lengths. -/
theorem three_sided_perimeter_layout (svgWidth svgDistanceFromEdge finalSvgHeight : ℝ)
    (rootDiameters : List ℝ) :
    ((threeSided svgWidth svgDistanceFromEdge finalSvgHeight rootDiameters).headD
        default).y1
      = svgDistanceFromEdge
        + max (finalSvgHeight * 0.2) (largestRootDiameter rootDiameters) ∧
    ((initializeSegments 0
        (threeSided svgWidth svgDistanceFromEdge finalSvgHeight rootDiameters)).headD
          default).segBegin = 0 ∧
    List.Chain' (fun a b => b.segBegin = a.segEnd)
      (initializeSegments 0
        (threeSided svgWidth svgDistanceFromEdge finalSvgHeight rootDiameters)) ∧
    total1DSpaceAvailable
        (threeSided svgWidth svgDistanceFromEdge finalSvgHeight rootDiameters)
      = ((initializeSegments 0
            (threeSided svgWidth svgDistanceFromEdge finalSvgHeight rootDiameters)).map
          (fun s => s.segEnd - s.segBegin)).sum := by
  refine ⟨rfl, rfl, ?_, ?_⟩
  · simp [threeSided, initializeSegments, List.chain'_cons]
  · simp [threeSided, initializeSegments, total1DSpaceAvailable]
